import Mathlib

/-!
Shallow embedding of the re-state repository's durable core:
the ResearchTracker virtual object (src/restate/services/research-tracker.ts),
its data types (src/restate/services/types.ts), the fetch layer
(src/restate/services/utils/browser-fetcher.ts) and the two scrapers'
record construction (src/restate/services/utils/idealista-scraper.ts and
the immobiliare scraper).

Modelling conventions, used consistently below:
- `ctx.get<T>(key)` returning `T | null` is an `Option` field of `ResearchState`.
- JavaScript truthiness of a `string | null` value (`if (existingCriteria)`,
  `if (!criteria)`, `process.env.X` checks) is `strTruthy`: truthy iff present
  and nonempty.
- A handler is a pure function from its inputs and the current state to
  `Except HandlerError α × ResearchState`; in every handler of the source, no
  state write (`ctx.set`) precedes any `throw`, so on the error path the
  returned state is the input state, which mirrors Restate's journal commit
  behaviour at those program points.
- Journaled nondeterminism (`ctx.rand.uuidv4()`, the `ctx.run`-wrapped fetch,
  the `durableCalls`-wrapped model calls) is passed in as explicit parameters:
  on replay the journal supplies the same values, so the same parameters model
  the same journal. Unjournaled ambient effects (`new Date().toISOString()`
  called directly in handler bodies) are passed as separate `now`/clock
  parameters: distinct executions of the same journal may observe distinct
  values there.
- The WHATWG `new URL(url)` parse is an oracle parameter returning the
  hostname, `none` when the constructor throws.
-/

namespace ReState

/-! ## Data model (src/restate/services/types.ts) -/

/-- `AdStatusSchema` enum values (types.ts lines 13-19). -/
def adStatusValues : List String :=
  ["to reach out", "visit appointment taken", "sent the offer", "bought", "rejected"]

/-- `RenovationStatusSchema` enum values (types.ts lines 4-8). -/
def renovationStatusValues : List String :=
  ["new", "little renovation", "to renovate extensively"]

/-- `PropertyAdSchema` (types.ts lines 24-42). Optional numeric fields are
`Option Nat`; absent means the field was left `undefined`. -/
structure PropertyAd where
  id : String
  url : String
  source : String
  title : String
  price : Option Nat
  location : String
  size : Option Nat
  rooms : Option Nat
  bathrooms : Option Nat
  description : String
  descriptionSummary : String
  renovationStatus : String
  features : List String
  status : String
  notes : Option String
  adAge : String
  scrapedAt : String
deriving Repr, DecidableEq

/-- `QuestionAnswerSchema` (types.ts lines 47-52). -/
structure QuestionAnswer where
  id : String
  question : String
  answer : String
  askedAt : String
deriving Repr, DecidableEq

/-- The per-key state of the ResearchTracker virtual object: the four state
keys written by its handlers (`criteria`, `ads`, `questions`, `createdAt`).
`none` models a key that was never set (ctx.get returns null). -/
structure ResearchState where
  criteria : Option String
  ads : Option (List PropertyAd)
  questions : Option (List QuestionAnswer)
  createdAt : Option String
deriving Repr, DecidableEq

/-- State of a virtual object key that was never written. -/
def emptyResearchState : ResearchState :=
  { criteria := none, ads := none, questions := none, createdAt := none }

/-- JavaScript truthiness of a `string | null` value: truthy iff non-null and
nonempty. -/
def strTruthy : Option String → Bool
  | none => false
  | some s => s ≠ ""

/-- Whether `pat` occurs at the head of `l`. -/
def listStartsWith {α : Type} [DecidableEq α] : List α → List α → Bool
  | _, [] => true
  | [], _ :: _ => false
  | a :: as, b :: bs => a = b && listStartsWith as bs

/-- Whether `pat` occurs as a contiguous subsequence of the second list. -/
def listContainsSeq {α : Type} [DecidableEq α] (pat : List α) : List α → Bool
  | [] => listStartsWith [] pat
  | a :: as => listStartsWith (a :: as) pat || listContainsSeq pat as

/-- JavaScript `String.prototype.trim`: strip whitespace from both ends. -/
def jsTrimString (s : String) : String :=
  String.mk (((s.data.dropWhile Char.isWhitespace).reverse.dropWhile
    Char.isWhitespace).reverse)

/-- JavaScript `String.prototype.slice(0, n)`: the first `n` characters
(modelled per character rather than per UTF-16 code unit). -/
def jsSlice (s : String) (n : Nat) : String := String.mk (s.data.take n)

/-- Equality between `Except` results is decidable componentwise. -/
instance {ε α : Type} [DecidableEq ε] [DecidableEq α] : DecidableEq (Except ε α) :=
  fun x y =>
    match x, y with
    | .error a, .error b =>
      if h : a = b then .isTrue (congrArg Except.error h)
      else .isFalse (fun hh => h (Except.error.inj hh))
    | .ok a, .ok b =>
      if h : a = b then .isTrue (congrArg Except.ok h)
      else .isFalse (fun hh => h (Except.ok.inj hh))
    | .error _, .ok _ => .isFalse (fun hh => Except.noConfusion hh)
    | .ok _, .error _ => .isFalse (fun hh => Except.noConfusion hh)

/-- A `TerminalError` thrown by a handler, carrying its message string. -/
inductive HandlerError where
  | terminal (msg : String)
deriving Repr, DecidableEq

/-- research-tracker.ts line 28. -/
def alreadyExistsErr : HandlerError :=
  .terminal "Research with this name already exists. Please choose a different name."

/-- research-tracker.ts line 47. -/
def notFoundErr : HandlerError := .terminal "Research not found"

/-- research-tracker.ts lines 128 and 150. -/
def adNotFoundErr : HandlerError := .terminal "Property ad not found in this research"

/-! ## ResearchTracker handlers (src/restate/services/research-tracker.ts) -/

/-- Handler `createResearch` (lines 21-38). `now` is the unjournaled
`new Date().toISOString()` read at line 37. The AlreadyExists check at line 27
is `if (existingCriteria)`, i.e. truthiness. -/
def createResearch (now : String) (s : ResearchState) (criteria : String) :
    Except HandlerError Unit × ResearchState :=
  if strTruthy s.criteria then
    (.error alreadyExistsErr, s)
  else
    (.ok (), { criteria := some criteria, ads := some [], questions := some [],
               createdAt := some now })

/-- Handler `getCriteria` (lines 43-51), a shared (read-only) handler:
`if (!criteria) throw new TerminalError("Research not found")`. -/
def getCriteria (s : ResearchState) : Except HandlerError String :=
  if strTruthy s.criteria then .ok (s.criteria.getD "") else .error notFoundErr

/-- Handler `getAds` (lines 100-105), a shared handler: returns
`(await ctx.get("ads")) || []` and cannot throw. -/
def getAds (s : ResearchState) : Except HandlerError (List PropertyAd) :=
  .ok (s.ads.getD [])

/-- Handler `getQuestions` (lines 235-240), a shared handler: returns
`(await ctx.get("questions")) || []` and cannot throw. -/
def getQuestions (s : ResearchState) : Except HandlerError (List QuestionAnswer) :=
  .ok (s.questions.getD [])

/-- research-tracker.ts line 65. -/
def invalidUrlErr : HandlerError := .terminal "Invalid URL format"

/-- research-tracker.ts lines 77-79. -/
def unsupportedHostErr : HandlerError :=
  .terminal "Only idealista.it and immobiliare.it URLs are supported"

/-- JavaScript `String.prototype.includes`: `s` contains `pat` as a
substring. -/
def strIncludes (s pat : String) : Bool := listContainsSeq pat.data s.data

/-- Handler `addAd` (lines 56-95). `parseUrl` models `new URL(url)` (hostname
on success, `none` when the constructor throws); the two scraper calls are
journaled-step oracles; `uuid` is the journaled `ctx.rand.uuidv4()` of
line 83. The append at lines 90-92 runs only after the scrape succeeded. -/
def addAd (parseUrl : String → Option String)
    (scrapeIdealista scrapeImmobiliare : String → Except HandlerError PropertyAd)
    (uuid : String) (s : ResearchState) (url : String) :
    Except HandlerError PropertyAd × ResearchState :=
  match parseUrl url with
  | none => (.error invalidUrlErr, s)
  | some hostname =>
    let scraped :=
      if strIncludes hostname "idealista.it" then scrapeIdealista url
      else if strIncludes hostname "immobiliare.it" then scrapeImmobiliare url
      else .error unsupportedHostErr
    match scraped with
    | .error e => (.error e, s)
    | .ok scrapedAd =>
      let propertyAd : PropertyAd := { scrapedAd with id := uuid }
      let ads := s.ads.getD []
      (.ok propertyAd, { s with ads := some (ads ++ [propertyAd]) })

/-- JavaScript `Array.prototype.findIndex` with a predicate, `none` standing
for the -1 result. Returns the index of the first match. -/
def jsFindIndex {α : Type} (p : α → Bool) : List α → Option Nat
  | [] => none
  | a :: as => if p a then some 0 else (jsFindIndex p as).map (· + 1)

/-- Handler `updateAdStatus` (lines 110-133): zod enum validation first
(line 117), then the id lookup (line 126), then in-place replacement of the
`status` field only (line 131). The inner `none` branch of the list lookup is
unreachable (`jsFindIndex` only returns in-bounds indices). -/
def updateAdStatus (s : ResearchState) (adId status : String) :
    Except HandlerError Unit × ResearchState :=
  if status ∈ adStatusValues then
    let ads := s.ads.getD []
    match jsFindIndex (fun ad => ad.id = adId) ads with
    | none => (.error adNotFoundErr, s)
    | some adIndex =>
      match ads[adIndex]? with
      | none => (.error adNotFoundErr, s)
      | some ad =>
        (.ok (), { s with ads := some (ads.set adIndex { ad with status := status }) })
  else
    (.error (.terminal ("Invalid status value: " ++ status)), s)

/-- Handler `updateAdNotes` (lines 138-155): same shape as `updateAdStatus`
with the `notes` field in place of `status` and no enum validation. -/
def updateAdNotes (s : ResearchState) (adId notes : String) :
    Except HandlerError Unit × ResearchState :=
  let ads := s.ads.getD []
  match jsFindIndex (fun ad => ad.id = adId) ads with
  | none => (.error adNotFoundErr, s)
  | some adIndex =>
    match ads[adIndex]? with
    | none => (.error adNotFoundErr, s)
    | some ad =>
      (.ok (), { s with ads := some (ads.set adIndex { ad with notes := some notes }) })

/-- JavaScript template-literal interpolation of a `string | null` value:
`null` renders as the string "null". -/
def jsTemplateStr : Option String → String
  | some s => s
  | none => "null"

/-- One entry of the `adsContext` template literal of `askQuestion`
(research-tracker.ts lines 175-189), including its leading and trailing
newline. The JS ternaries/`||` on the numeric fields are truthiness tests, so
a stored 0 renders as "Not specified"; empty notes render as "No notes". -/
def renderAdContext (idx : Nat) (ad : PropertyAd) : String :=
  let priceStr := match ad.price with
    | some p => if p ≠ 0 then "€" ++ toString p else "Not specified"
    | none => "Not specified"
  let sizeStr := match ad.size with
    | some n => if n ≠ 0 then toString n ++ "m²" else "Not specified"
    | none => "Not specified"
  let roomsStr := match ad.rooms with
    | some n => if n ≠ 0 then toString n else "Not specified"
    | none => "Not specified"
  let bathroomsStr := match ad.bathrooms with
    | some n => if n ≠ 0 then toString n else "Not specified"
    | none => "Not specified"
  let notesStr := match ad.notes with
    | some n => if n ≠ "" then n else "No notes"
    | none => "No notes"
  "\nProperty " ++ toString (idx + 1) ++ ":\n- Title: " ++ ad.title ++
  "\n- Price: " ++ priceStr ++
  "\n- Location: " ++ ad.location ++
  "\n- Size: " ++ sizeStr ++
  "\n- Rooms: " ++ roomsStr ++
  "\n- Bathrooms: " ++ bathroomsStr ++
  "\n- Renovation Status: " ++ ad.renovationStatus ++
  "\n- Description Summary: " ++ ad.descriptionSummary ++
  "\n- Features: " ++ String.intercalate ", " (ad.features.take 5) ++
  "\n- Status: " ++ ad.status ++
  "\n- Notes: " ++ notesStr ++
  "\n- URL: " ++ ad.url ++ "\n"

/-- `adsContext` of `askQuestion` (lines 173-191): the rendered entries joined
with "\n---\n". -/
def adsContext (ads : List PropertyAd) : String :=
  String.intercalate "\n---\n" (ads.enum.map (fun p => renderAdContext p.1 p.2))

/-- The full prompt passed to `generateText` in `askQuestion` (lines 201-210).
Built only from the stored criteria, the stored ad list and the question.
`criteria` may be null and then interpolates as "null". -/
def questionPrompt (criteria : Option String) (ads : List PropertyAd)
    (question : String) : String :=
  "Sei un assistente di analisi immobiliare utile e competente.\n\n" ++
  "Criteri di ricerca: " ++ jsTemplateStr criteria ++ "\n\n" ++
  "Immobili nella ricerca:\n" ++ adsContext ads ++ "\n\n" ++
  "Domanda dell\x27utente: " ++ question ++ "\n\n" ++
  "Fornisci una risposta dettagliata e utile analizzando gli immobili in base alla domanda. Considera prezzi, posizioni, dimensioni, necessità di ristrutturazione e le note dell\x27utente quando rilevanti. Rispondi sempre in italiano."

/-- research-tracker.ts line 165. -/
def emptyQuestionErr : HandlerError := .terminal "Question cannot be empty"

/-- An external call made by a handler while it runs. -/
inductive Effect where
  | fetchProviderCall (url : String)
  | llmCall (prompt : String)
deriving Repr, DecidableEq

/-- Handler `askQuestion` (lines 160-230). `generateText` is the
durable (journaled) language-model call: prompt to answer text. `uuid` is the
journaled `ctx.rand.uuidv4()` of line 217; `now` is the unjournaled
`new Date().toISOString()` of line 222. The third component lists the external
calls the handler makes: exactly one model call on the success path and no
fetch-provider call anywhere. -/
def askQuestion (generateText : String → String) (uuid now : String)
    (s : ResearchState) (question : String) :
    (Except HandlerError String × ResearchState) × List Effect :=
  if question = "" ∨ jsTrimString question = "" then
    ((.error emptyQuestionErr, s), [])
  else
    let ads := s.ads.getD []
    let prompt := questionPrompt s.criteria ads question
    let answer := generateText prompt
    let qa : QuestionAnswer := { id := uuid, question := question, answer := answer,
                                 askedAt := now }
    let questions := s.questions.getD []
    ((.ok answer, { s with questions := some (questions ++ [qa]) }),
     [.llmCall prompt])

/-! ## Fetch layer (src/restate/services/utils/browser-fetcher.ts) and the
durable run/retry discipline around it.

In the Restate SDK, an error thrown inside `ctx.run` is retried per the run's
retry policy unless it is a `TerminalError`; only a `TerminalError` fails the
step immediately. Every `throw` in browser-fetcher.ts is a plain `new Error`,
so every failure it produces is retryable. -/

/-- A failure of a journaled step: terminal fails the invocation immediately,
retryable is retried under the step's retry policy. -/
inductive StepFailure where
  | terminalFailure (msg : String)
  | retryableFailure (msg : String)
deriving Repr, DecidableEq

/-- `maxRetryAttempts` of `DURABLE_FETCH_RETRY_CONFIG`
(src/restate/services/utils/ai-config.ts): the attempt budget of the
`ctx.run("fetch-html", ...)` step of the idealista scraper. The backoff
intervals of the config do not affect which attempts happen and are not
modelled. -/
def DURABLE_FETCH_RETRY_CONFIG_maxRetryAttempts : Nat := 10

/-- `maxRetryAttempts` of `DURABLE_AI_RETRY_CONFIG` (ai-config.ts). -/
def DURABLE_AI_RETRY_CONFIG_maxRetryAttempts : Nat := 10

/-- The retry loop of a `ctx.run` step: `f` is the step body (given the
0-based attempt number), `attempt` the attempts already performed, the last
argument the remaining attempt budget. Returns the step result and the total
number of attempts executed. A retryable failure on the final allowed attempt
is surfaced as a terminal failure (retries exhausted). -/
def ctxRunAux {α : Type} (f : Nat → Except StepFailure α) (attempt : Nat) :
    Nat → Except StepFailure α × Nat
  | 0 => (.error (.terminalFailure "retry budget exhausted"), attempt)
  | Nat.succ budget =>
    match f attempt with
    | .ok a => (.ok a, attempt + 1)
    | .error (.terminalFailure m) => (.error (.terminalFailure m), attempt + 1)
    | .error (.retryableFailure m) =>
      if budget = 0 then (.error (.terminalFailure m), attempt + 1)
      else ctxRunAux f (attempt + 1) budget

/-- `ctx.run` with a retry policy allowing `maxRetryAttempts` attempts. -/
def ctxRun {α : Type} (maxRetryAttempts : Nat)
    (f : Nat → Except StepFailure α) : Except StepFailure α × Nat :=
  ctxRunAux f 0 maxRetryAttempts

/-- The HTTP response `page.goto` observed: status code, headers rendering and
final page content. -/
structure PageResponse where
  status : Nat
  headers : String
  content : String
deriving Repr, DecidableEq

/-- The response-classification part of `fetchWithPuppeteer`
(browser-fetcher.ts lines 228-291): `none` models `page.goto` resolving with
no response. Every branch throws a plain `Error` (never `TerminalError`), so
every failure — including the definitive 404 — is retryable. -/
def fetchWithPuppeteer (url : String) (response : Option PageResponse) :
    Except StepFailure String :=
  match response with
  | none =>
    .error (.retryableFailure ("Failed to load page: " ++ url ++ " - No response received"))
  | some r =>
    if r.status = 404 then
      .error (.retryableFailure
        ("Ad not found (404): " ++ url ++ "\nResponse headers:\n" ++ r.headers))
    else if r.status = 403 then
      .error (.retryableFailure
        ("Access denied (403): " ++ url ++ "\nPossible anti-bot protection detected.\nResponse headers:\n" ++
          r.headers ++ "\nBody preview:\n" ++ jsSlice r.content 500))
    else if 500 ≤ r.status then
      .error (.retryableFailure
        ("Server error (" ++ toString r.status ++ "): " ++ url ++ "\nResponse headers:\n" ++ r.headers))
    else if r.status ≠ 200 ∧ r.status ≠ 304 then
      .error (.retryableFailure
        ("Failed to fetch (" ++ toString r.status ++ "): " ++ url ++ "\nResponse headers:\n" ++ r.headers))
    else
      .ok r.content

/-- The environment variables consulted by `fetchWithBrowser`
(browser-fetcher.ts lines 17-19). -/
structure FetcherEnv where
  SCRAPERAPI_API_KEY : Option String
  SCRAPINGBEE_API_KEY : Option String
  ZENROWS_API_KEY : Option String
deriving Repr, DecidableEq

/-- The four fetch strategies of browser-fetcher.ts. -/
inductive FetchProvider where
  | scraperAPI
  | scrapingBee
  | zenRows
  | puppeteer
deriving Repr, DecidableEq

/-- The provider `fetchWithBrowser` selects for a given environment: the first
strategy whose API key is configured, Puppeteer when none is. -/
def selectProvider (env : FetcherEnv) : FetchProvider :=
  if strTruthy env.SCRAPERAPI_API_KEY then .scraperAPI
  else if strTruthy env.SCRAPINGBEE_API_KEY then .scrapingBee
  else if strTruthy env.ZENROWS_API_KEY then .zenRows
  else .puppeteer

/-- `fetchWithBrowser` (browser-fetcher.ts lines 15-35). `runProvider` models
the behaviour of each concrete strategy on the url. Returns the result of the
selected strategy together with the list of strategies actually invoked: each
`if (apiKey) return fetchWithX(...)` branch returns directly, so exactly one
strategy runs and a failure of the selected strategy propagates without any
other strategy being tried. -/
def fetchWithBrowser (env : FetcherEnv)
    (runProvider : FetchProvider → String → Except StepFailure String)
    (url : String) : Except StepFailure String × List FetchProvider :=
  if strTruthy env.SCRAPERAPI_API_KEY then
    (runProvider .scraperAPI url, [.scraperAPI])
  else if strTruthy env.SCRAPINGBEE_API_KEY then
    (runProvider .scrapingBee url, [.scrapingBee])
  else if strTruthy env.ZENROWS_API_KEY then
    (runProvider .zenRows url, [.zenRows])
  else
    (runProvider .puppeteer url, [.puppeteer])

/-! ## Extraction record construction (idealista-scraper.ts and the
immobiliare scraper) -/

/-- The object produced by a successful schema-constrained `generateObject`
call in either scraper. The zod schemas mark the text fields required and the
numeric fields optional; a "missing" required text field materialises as the
empty string. -/
structure AiExtraction where
  title : String
  price : Option Nat
  location : String
  size : Option Nat
  rooms : Option Nat
  bathrooms : Option Nat
  description : String
  descriptionSummary : String
  renovationStatus : String
  features : List String
  adAge : String
deriving Repr, DecidableEq

/-- The `PropertyAd` construction of `scrapeIdealistaAd`
(idealista-scraper.ts lines 74-93), run after a successful model call:
each required text field falls back to an explicit placeholder when empty
(`extracted.title || "Annuncio senza titolo"` and so on); the optional numeric
fields are copied as-is. For `descriptionSummary` the JS expression is
`extracted.descriptionSummary || extracted.description?.slice(0, 200) + "..." || "Nessuna descrizione disponibile"`:
since `+` binds tighter than `||` and the concatenation with "..." is always
a nonempty (truthy) string, the final "Nessuna descrizione disponibile"
alternative is unreachable. `now` is the unjournaled
`new Date().toISOString()` of line 92. -/
def idealistaPropertyAd (url : String) (extracted : AiExtraction) (now : String) :
    PropertyAd :=
  { id := ""
    url := url
    source := "idealista"
    title := if extracted.title = "" then "Annuncio senza titolo" else extracted.title
    price := extracted.price
    location := if extracted.location = "" then "Località non specificata" else extracted.location
    size := extracted.size
    rooms := extracted.rooms
    bathrooms := extracted.bathrooms
    description := if extracted.description = "" then "Descrizione non disponibile" else extracted.description
    descriptionSummary :=
      if extracted.descriptionSummary = "" then jsSlice extracted.description 200 ++ "..."
      else extracted.descriptionSummary
    renovationStatus :=
      if extracted.renovationStatus = "" then "little renovation" else extracted.renovationStatus
    features := if 0 < extracted.features.length then extracted.features else []
    status := "to reach out"
    notes := none
    adAge := if extracted.adAge = "" then "non specificato" else extracted.adAge
    scrapedAt := now }

/-- The `PropertyAd` construction of `scrapeImmobiliareAd` (immobiliare
scraper, lines 71-92): every extracted field is copied verbatim with no
fallback of any kind; an empty required text field stays empty. -/
def immobiliarePropertyAd (url : String) (extracted : AiExtraction) (now : String) :
    PropertyAd :=
  { id := ""
    url := url
    source := "immobiliare"
    title := extracted.title
    price := extracted.price
    location := extracted.location
    size := extracted.size
    rooms := extracted.rooms
    bathrooms := extracted.bathrooms
    description := extracted.description
    descriptionSummary := extracted.descriptionSummary
    renovationStatus := extracted.renovationStatus
    features := extracted.features
    status := "to reach out"
    notes := none
    adAge := extracted.adAge
    scrapedAt := now }

/-! ## Concrete fixtures used to evaluate the definitions -/

/-- A concrete stored ad. -/
def adExample : PropertyAd :=
  { id := "ad-1"
    url := "https://www.idealista.it/immobile/12345/"
    source := "idealista"
    title := "Trilocale in centro"
    price := some 250000
    location := "Milano"
    size := some 90
    rooms := some 3
    bathrooms := some 2
    description := "Ampio trilocale luminoso in centro"
    descriptionSummary := "Trilocale di 90 mq a Milano"
    renovationStatus := "new"
    features := ["ascensore", "terrazzo"]
    status := "to reach out"
    notes := none
    adAge := "oggi"
    scrapedAt := "2024-01-01T00:00:00.000Z" }

/-- A concrete project state holding one ad and no questions. -/
def stateExample : ResearchState :=
  { criteria := some "2 bed Milan under 300k"
    ads := some [adExample]
    questions := some []
    createdAt := some "2024-01-01T00:00:00.000Z" }

/-- A concrete listing URL on the supported idealista host. -/
def idealistaUrlExample : String := "https://www.idealista.it/immobile/12345/"

/-- A 404 response as seen by `fetchWithPuppeteer`. -/
def resp404 : PageResponse :=
  { status := 404, headers := "x-datadome: test", content := "Pagina non trovata" }

/-- Environment with only the ScraperAPI key configured. -/
def envScraperOnly : FetcherEnv :=
  { SCRAPERAPI_API_KEY := some "key-123", SCRAPINGBEE_API_KEY := none,
    ZENROWS_API_KEY := none }

/-- Provider behaviour where the configured ScraperAPI strategy fails but the
last-resort Puppeteer strategy would succeed. -/
def runProviderExample : FetchProvider → String → Except StepFailure String :=
  fun p _ =>
    match p with
    | .scraperAPI => .error (.retryableFailure "ScraperAPI error (500): upstream failure")
    | _ => .ok "<html>listing</html>"

/-- A successful model extraction whose required text fields came back empty
(the zod schemas require the fields but allow the empty string). -/
def extractionEmptyFields : AiExtraction :=
  { title := ""
    price := none
    location := ""
    size := none
    rooms := none
    bathrooms := none
    description := ""
    descriptionSummary := ""
    renovationStatus := "new"
    features := []
    adAge := "" }

/-! ## Theorems -/

/-- Claim C1: `addAd` is atomic. For every project state and every URL on
which the invocation fails — invalid URL, unsupported host, or the
scraping/extraction step failing after exhausting its retries (any error of
the scrape oracle) — the state after the failed invocation equals the state
before it; in particular no partial ad record is appended and a subsequent
`getAds` returns the same list as before the call. -/
theorem c1_addAd_atomic
    (parseUrl : String → Option String)
    (scrapeIdealista scrapeImmobiliare : String → Except HandlerError PropertyAd)
    (uuid : String) (s : ResearchState) (url : String) (e : HandlerError)
    (h : (addAd parseUrl scrapeIdealista scrapeImmobiliare uuid s url).1 = .error e) :
    (addAd parseUrl scrapeIdealista scrapeImmobiliare uuid s url).2 = s ∧
    getAds (addAd parseUrl scrapeIdealista scrapeImmobiliare uuid s url).2 = getAds s := by
  have h2 : (addAd parseUrl scrapeIdealista scrapeImmobiliare uuid s url).2 = s := by
    unfold addAd at h ⊢
    cases hp : parseUrl url with
    | none => simp [hp]
    | some hostname =>
      simp only [hp] at h ⊢
      cases hs : (if strIncludes hostname "idealista.it" then scrapeIdealista url
          else if strIncludes hostname "immobiliare.it" then scrapeImmobiliare url
          else Except.error unsupportedHostErr) with
      | error e2 => simp [hs]
      | ok ad => simp [hs] at h
  exact ⟨h2, by rw [h2]⟩

/-- Witness for C1 at a concrete failing input (an unparsable URL). -/
theorem c1_addAd_atomic_witness :
    (addAd (fun _ => none) (fun _ => Except.error (.terminal "fetch failed"))
        (fun _ => Except.error (.terminal "fetch failed")) "uuid-1"
        emptyResearchState "not a url").2 = emptyResearchState ∧
    getAds (addAd (fun _ => none) (fun _ => Except.error (.terminal "fetch failed"))
        (fun _ => Except.error (.terminal "fetch failed")) "uuid-1"
        emptyResearchState "not a url").2 = getAds emptyResearchState :=
  c1_addAd_atomic (fun _ => none) (fun _ => Except.error (.terminal "fetch failed"))
    (fun _ => Except.error (.terminal "fetch failed")) "uuid-1"
    emptyResearchState "not a url" invalidUrlErr rfl

/-- Claim C2 (code bug): the handlers read the wall clock directly
(`new Date().toISOString()` at research-tracker.ts lines 37 and 222) instead
of through a journaled step, so two executions of the same logical invocation
that observe the same journal (same journaled uuid, same journaled model
answer) but run at different wall-clock instants commit different state: the
`createdAt` of `createResearch` and the `askedAt` inside the question list of
`askQuestion` differ between the two executions. -/
theorem c2_unjournaled_clock_divergence :
    ((createResearch "2024-01-01T00:00:00.000Z" emptyResearchState "criteria").2).createdAt ≠
      ((createResearch "2024-01-01T00:00:05.000Z" emptyResearchState "criteria").2).createdAt ∧
    ((askQuestion (fun _ => "Risposta.") "q-uuid" "2024-01-01T00:00:00.000Z"
        stateExample "Quale casa costa meno").1.2).questions ≠
      ((askQuestion (fun _ => "Risposta.") "q-uuid" "2024-01-01T00:00:05.000Z"
        stateExample "Quale casa costa meno").1.2).questions := by
  constructor
  · decide
  · decide

/-- Counterexample to claim C3 as stated: `create("")` succeeds and sets
`criteria` (to the empty string), yet a second `create` on the same key does
not fail AlreadyExists — it succeeds, because the existence check at
research-tracker.ts line 27 is JavaScript truthiness of the stored string. -/
theorem c3_counterexample :
    (createResearch "2024-01-01T00:00:00.000Z" emptyResearchState "").1 = .ok () ∧
    ((createResearch "2024-01-01T00:00:00.000Z" emptyResearchState "").2).criteria = some "" ∧
    (createResearch "2024-01-02T00:00:00.000Z"
        (createResearch "2024-01-01T00:00:00.000Z" emptyResearchState "").2 "different").1 = .ok () := by
  exact ⟨rfl, rfl, rfl⟩

/-- Claim C3 as amended: `create(criteria)` fails AlreadyExists if and only if
the stored criteria is a nonempty string; on that failure all state is
unchanged; otherwise it sets criteria to the argument, empty ad and question
lists, and the creation timestamp; and a second create on the same key after a
creation with nonempty criteria is always an error. -/
theorem c3_create_amended (now now2 : String) (s : ResearchState) (c c2 : String) :
    ((createResearch now s c).1 = .error alreadyExistsErr ↔ strTruthy s.criteria = true) ∧
    (strTruthy s.criteria = true → (createResearch now s c).2 = s) ∧
    (strTruthy s.criteria = false →
      (createResearch now s c).2 =
        { criteria := some c, ads := some [], questions := some [],
          createdAt := some now }) ∧
    (strTruthy s.criteria = false → c ≠ "" →
      (createResearch now2 (createResearch now s c).2 c2).1 = .error alreadyExistsErr) := by
  unfold createResearch
  cases h : strTruthy s.criteria with
  | true => simp [h]
  | false =>
    simp [h, strTruthy]
    intro hc
    simp [hc]

/-- Witness for C3's amended theorem: AlreadyExists on an existing project
leaves state unchanged, and a second create after a nonempty creation fails. -/
theorem c3_create_amended_witness :
    (createResearch "t" stateExample "x").2 = stateExample ∧
    (createResearch "t2" (createResearch "t" emptyResearchState "nonempty").2 "y").1 =
      .error alreadyExistsErr := by
  exact ⟨(c3_create_amended "t" "t2" stateExample "x" "y").2.1 (by decide),
         (c3_create_amended "t" "t2" emptyResearchState "nonempty" "y").2.2.2 (by decide)
           (by decide)⟩

/-- Claim C4: `updateAdStatus` validates the status enum before the id lookup
and fails Validation when the status is outside it, leaving state unchanged
(regardless of whether the id exists); it fails NotFound on an unknown ad id
leaving the ad list unchanged; otherwise it replaces only the matched ad's
`status` field — same index, same length, every other ad and every other
state field untouched. `updateAdNotes` behaves the same with the `notes`
field and no enum check. -/
theorem c4_update_frame (s : ResearchState) (adId status notes : String) :
    (status ∉ adStatusValues →
      (updateAdStatus s adId status).1 =
        .error (.terminal ("Invalid status value: " ++ status)) ∧
      (updateAdStatus s adId status).2 = s) ∧
    (status ∈ adStatusValues →
      jsFindIndex (fun ad => ad.id = adId) (s.ads.getD []) = none →
      (updateAdStatus s adId status).1 = .error adNotFoundErr ∧
      (updateAdStatus s adId status).2 = s) ∧
    (∀ i ad, status ∈ adStatusValues →
      jsFindIndex (fun a => a.id = adId) (s.ads.getD []) = some i →
      (s.ads.getD [])[i]? = some ad →
      (updateAdStatus s adId status).1 = .ok () ∧
      (updateAdStatus s adId status).2.criteria = s.criteria ∧
      (updateAdStatus s adId status).2.questions = s.questions ∧
      (updateAdStatus s adId status).2.createdAt = s.createdAt ∧
      ((updateAdStatus s adId status).2.ads.getD []).length = (s.ads.getD []).length ∧
      ((updateAdStatus s adId status).2.ads.getD [])[i]? =
        some { ad with status := status } ∧
      (∀ j, j ≠ i →
        ((updateAdStatus s adId status).2.ads.getD [])[j]? = (s.ads.getD [])[j]?)) ∧
    (jsFindIndex (fun ad => ad.id = adId) (s.ads.getD []) = none →
      (updateAdNotes s adId notes).1 = .error adNotFoundErr ∧
      (updateAdNotes s adId notes).2 = s) ∧
    (∀ i ad,
      jsFindIndex (fun a => a.id = adId) (s.ads.getD []) = some i →
      (s.ads.getD [])[i]? = some ad →
      (updateAdNotes s adId notes).1 = .ok () ∧
      (updateAdNotes s adId notes).2.criteria = s.criteria ∧
      (updateAdNotes s adId notes).2.questions = s.questions ∧
      (updateAdNotes s adId notes).2.createdAt = s.createdAt ∧
      ((updateAdNotes s adId notes).2.ads.getD []).length = (s.ads.getD []).length ∧
      ((updateAdNotes s adId notes).2.ads.getD [])[i]? =
        some { ad with notes := some notes } ∧
      (∀ j, j ≠ i →
        ((updateAdNotes s adId notes).2.ads.getD [])[j]? = (s.ads.getD [])[j]?)) := by
  refine ⟨?_, ?_, ?_, ?_, ?_⟩
  · intro hmem
    simp [updateAdStatus, hmem]
  · intro hmem hidx
    simp [updateAdStatus, hmem, hidx]
  · intro i ad hmem hidx hget
    obtain ⟨hlt, -⟩ := List.getElem?_eq_some_iff.mp hget
    simp only [updateAdStatus, if_pos hmem, hidx, hget]
    refine ⟨by trivial, by trivial, by trivial, by trivial, by simp, ?_, ?_⟩
    · simp [List.getElem?_set_self (by simpa using hlt)]
    · intro j hj
      simp [List.getElem?_set_ne (Ne.symm hj)]
  · intro hidx
    simp [updateAdNotes, hidx]
  · intro i ad hidx hget
    obtain ⟨hlt, -⟩ := List.getElem?_eq_some_iff.mp hget
    simp only [updateAdNotes, hidx, hget]
    refine ⟨by trivial, by trivial, by trivial, by trivial, by simp, ?_, ?_⟩
    · simp [List.getElem?_set_self (by simpa using hlt)]
    · intro j hj
      simp [List.getElem?_set_ne (Ne.symm hj)]

/-- Witness for C4 at concrete inputs: an out-of-enum status fails Validation,
an unknown id fails NotFound leaving the list unchanged, and a valid update on
the stored ad succeeds replacing only its status. -/
theorem c4_update_frame_witness :
    (updateAdStatus stateExample "ad-1" "sold").1 =
      .error (.terminal ("Invalid status value: " ++ "sold")) ∧
    (updateAdStatus stateExample "missing-id" "bought").2 = stateExample ∧
    (updateAdStatus stateExample "ad-1" "bought").1 = .ok () ∧
    ((updateAdStatus stateExample "ad-1" "bought").2.ads.getD [])[0]? =
      some { adExample with status := "bought" } ∧
    (updateAdNotes stateExample "ad-1" "vista!").1 = .ok () ∧
    ((updateAdNotes stateExample "ad-1" "vista!").2.ads.getD [])[0]? =
      some { adExample with notes := some "vista!" } := by
  refine ⟨((c4_update_frame stateExample "ad-1" "sold" "n").1 (by decide)).1,
          ((c4_update_frame stateExample "missing-id" "bought" "n").2.1 (by decide)
            (by decide)).2,
          ?_, ?_, ?_, ?_⟩
  · exact ((c4_update_frame stateExample "ad-1" "bought" "n").2.2.1 0 adExample
      (by decide) (by decide) (by decide)).1
  · exact ((c4_update_frame stateExample "ad-1" "bought" "n").2.2.1 0 adExample
      (by decide) (by decide) (by decide)).2.2.2.2.2.1
  · exact ((c4_update_frame stateExample "ad-1" "bought" "vista!").2.2.2.2 0 adExample
      (by decide) (by decide)).1
  · exact ((c4_update_frame stateExample "ad-1" "bought" "vista!").2.2.2.2 0 adExample
      (by decide) (by decide)).2.2.2.2.2.1

/-- Claim C5: `askQuestion` fails Validation on an empty or whitespace-only
question, changing no state and making no external call; otherwise it builds
its prompt only from the stored criteria, the stored ad list and the
question, makes exactly one language-model call and no fetch-provider call,
appends exactly one `QuestionAnswer` whose answer is the model output, and
returns that answer text verbatim as stored. -/
theorem c5_askQuestion_spec (gen : String → String) (uuid now : String)
    (s : ResearchState) (q : String) :
    (jsTrimString q = "" →
      (askQuestion gen uuid now s q).1.1 = .error emptyQuestionErr ∧
      (askQuestion gen uuid now s q).1.2 = s ∧
      (askQuestion gen uuid now s q).2 = []) ∧
    (jsTrimString q ≠ "" →
      (askQuestion gen uuid now s q).1.1 =
        .ok (gen (questionPrompt s.criteria (s.ads.getD []) q)) ∧
      (askQuestion gen uuid now s q).1.2 =
        { s with questions := some ((s.questions.getD []) ++
            [{ id := uuid, question := q,
               answer := gen (questionPrompt s.criteria (s.ads.getD []) q),
               askedAt := now }]) } ∧
      (askQuestion gen uuid now s q).2 =
        [Effect.llmCall (questionPrompt s.criteria (s.ads.getD []) q)] ∧
      (∀ u, Effect.fetchProviderCall u ∉ (askQuestion gen uuid now s q).2)) := by
  constructor
  · intro ht
    simp [askQuestion, ht]
  · intro ht
    have hq : ¬(q = "" ∨ jsTrimString q = "") := by
      rintro (rfl | h)
      · exact ht rfl
      · exact ht h
    simp [askQuestion, hq]

/-- Witness for C5 at concrete inputs: both the whitespace-only rejection and
a successful question on a project with one stored ad. -/
theorem c5_askQuestion_spec_witness :
    (askQuestion (fun _ => "Risposta generata.") "q-1" "2024-01-01T00:00:00.000Z"
        stateExample "   ").1.1 = .error emptyQuestionErr ∧
    (askQuestion (fun _ => "Risposta generata.") "q-1" "2024-01-01T00:00:00.000Z"
        stateExample "Quale casa costa meno").1.1 = .ok "Risposta generata." ∧
    (askQuestion (fun _ => "Risposta generata.") "q-1" "2024-01-01T00:00:00.000Z"
        stateExample "Quale casa costa meno").2 =
      [Effect.llmCall (questionPrompt stateExample.criteria
        (stateExample.ads.getD []) "Quale casa costa meno")] := by
  refine ⟨((c5_askQuestion_spec (fun _ => "Risposta generata.") "q-1"
      "2024-01-01T00:00:00.000Z" stateExample "   ").1 (by decide)).1, ?_, ?_⟩
  · exact ((c5_askQuestion_spec (fun _ => "Risposta generata.") "q-1"
      "2024-01-01T00:00:00.000Z" stateExample "Quale casa costa meno").2 (by decide)).1
  · exact ((c5_askQuestion_spec (fun _ => "Risposta generata.") "q-1"
      "2024-01-01T00:00:00.000Z" stateExample "Quale casa costa meno").2
        (by decide)).2.2.1

/-- A `ctx.run` body that fails retryably on every attempt is attempted once
per unit of budget and the exhaustion is surfaced as a terminal failure. -/
theorem ctxRunAux_const_retryable {α : Type} (m : String)
    (f : Nat → Except StepFailure α)
    (hf : ∀ k, f k = .error (.retryableFailure m)) :
    ∀ budget attempt, ctxRunAux f attempt (budget + 1) =
      (.error (.terminalFailure m), attempt + budget + 1) := by
  intro budget
  induction budget with
  | zero =>
    intro attempt
    rw [ctxRunAux, hf attempt]
    simp
  | succ b ih =>
    intro attempt
    have step : ctxRunAux f attempt (b + 1 + 1) = ctxRunAux f (attempt + 1) (b + 1) := by
      conv_lhs => rw [ctxRunAux]
      rw [hf attempt]
      simp
    rw [step, ih (attempt + 1)]
    congr 1
    omega

/-- Counterexample to claim C6 as stated: a definitive 404 response is thrown
as a plain (retryable) error, so under `DURABLE_FETCH_RETRY_CONFIG` the fetch
step of `addAd` is attempted 10 times — not failed immediately without
retry (which would be exactly 1 attempt). -/
theorem c6_counterexample :
    (ctxRun DURABLE_FETCH_RETRY_CONFIG_maxRetryAttempts
      (fun _ => fetchWithPuppeteer idealistaUrlExample (some resp404))).2 = 10 ∧
    (ctxRun DURABLE_FETCH_RETRY_CONFIG_maxRetryAttempts
      (fun _ => fetchWithPuppeteer idealistaUrlExample (some resp404))).2 ≠ 1 ∧
    fetchWithPuppeteer idealistaUrlExample (some resp404) =
      .error (.retryableFailure ("Ad not found (404): " ++ idealistaUrlExample ++
        "\nResponse headers:\n" ++ resp404.headers)) := by
  refine ⟨by decide, by decide, by decide⟩

/-- Claim C6 as amended: a definitive 404 response is classified as a
retryable (non-terminal) failure — `fetchWithPuppeteer` throws a plain error
for it — and the fetch step retries it under the backoff policy until the
attempt budget is exhausted (n+1 attempts for a budget of n+1), only then
surfacing a terminal failure. -/
theorem c6_404_retried (url : String) (r : PageResponse) (n : Nat)
    (h : r.status = 404) :
    fetchWithPuppeteer url (some r) =
      .error (.retryableFailure ("Ad not found (404): " ++ url ++
        "\nResponse headers:\n" ++ r.headers)) ∧
    (ctxRun (n + 1) (fun _ => fetchWithPuppeteer url (some r))).2 = n + 1 ∧
    (ctxRun (n + 1) (fun _ => fetchWithPuppeteer url (some r))).1 =
      .error (.terminalFailure ("Ad not found (404): " ++ url ++
        "\nResponse headers:\n" ++ r.headers)) := by
  have hf : ∀ k : Nat, fetchWithPuppeteer url (some r) =
      .error (.retryableFailure ("Ad not found (404): " ++ url ++
        "\nResponse headers:\n" ++ r.headers)) := by
    intro _
    simp [fetchWithPuppeteer, h]
  have hrun := ctxRunAux_const_retryable
    ("Ad not found (404): " ++ url ++ "\nResponse headers:\n" ++ r.headers)
    (fun _ => fetchWithPuppeteer url (some r)) hf n 0
  refine ⟨hf 0, ?_, ?_⟩
  · unfold ctxRun
    rw [hrun]
    simp
  · unfold ctxRun
    rw [hrun]

/-- Witness for C6's amended theorem at the concrete 404 fixture and the
configured budget of 10. -/
theorem c6_404_retried_witness :
    (ctxRun (9 + 1) (fun _ => fetchWithPuppeteer idealistaUrlExample (some resp404))).2 =
      9 + 1 ∧
    fetchWithPuppeteer idealistaUrlExample (some resp404) =
      .error (.retryableFailure ("Ad not found (404): " ++ idealistaUrlExample ++
        "\nResponse headers:\n" ++ resp404.headers)) := by
  exact ⟨(c6_404_retried idealistaUrlExample resp404 9 rfl).2.1,
         (c6_404_retried idealistaUrlExample resp404 9 rfl).1⟩

/-- Counterexample to claim C7 as stated: with the ScraperAPI key configured
and ScraperAPI failing, `fetchWithBrowser` fails having invoked only
ScraperAPI — the next providers (including the automated-browser last resort,
which here would have succeeded) are never tried. -/
theorem c7_counterexample :
    (fetchWithBrowser envScraperOnly runProviderExample idealistaUrlExample).1 =
      .error (.retryableFailure "ScraperAPI error (500): upstream failure") ∧
    (fetchWithBrowser envScraperOnly runProviderExample idealistaUrlExample).2 =
      [FetchProvider.scraperAPI] ∧
    runProviderExample FetchProvider.puppeteer idealistaUrlExample =
      .ok "<html>listing</html>" := by
  refine ⟨by decide, by decide, by decide⟩

/-- Claim C7 as amended: the fetch strategies form a configuration-priority
selection, not a failure-fallback chain — `fetchWithBrowser` invokes exactly
the first strategy whose API key is configured (the automated browser only
when no key is configured) and returns that strategy's result, successful or
not; on failure no further strategy is tried. -/
theorem c7_provider_selection (env : FetcherEnv)
    (runProvider : FetchProvider → String → Except StepFailure String)
    (url : String) :
    fetchWithBrowser env runProvider url =
      (runProvider (selectProvider env) url, [selectProvider env]) := by
  unfold fetchWithBrowser selectProvider
  split
  · rfl
  · split
    · rfl
    · split
      · rfl
      · rfl

/-- Counterexample to claim C8 as stated: on a successful extraction whose
required text fields came back empty, the immobiliare record construction
stores the empty fields verbatim — no fallback placeholder — while the
idealista one does fill the placeholder. -/
theorem c8_counterexample :
    (immobiliarePropertyAd "https://www.immobiliare.it/annunci/1/"
      extractionEmptyFields "2024-01-01T00:00:00.000Z").title = "" ∧
    (immobiliarePropertyAd "https://www.immobiliare.it/annunci/1/"
      extractionEmptyFields "2024-01-01T00:00:00.000Z").location = "" ∧
    (immobiliarePropertyAd "https://www.immobiliare.it/annunci/1/"
      extractionEmptyFields "2024-01-01T00:00:00.000Z").description = "" ∧
    (idealistaPropertyAd "https://www.idealista.it/immobile/1/"
      extractionEmptyFields "2024-01-01T00:00:00.000Z").title =
        "Annuncio senza titolo" := by
  refine ⟨by decide, by decide, by decide, by decide⟩

/-- Claim C8 as amended: only the idealista extractor fills missing/empty
required text fields with explicit fallback placeholders (so its text fields
are never empty), while the immobiliare extractor stores the model's fields
verbatim, an empty string staying empty; missing optional numeric fields are
left absent by both. -/
theorem c8_fallback_placeholders (url now : String) (e : AiExtraction) :
    (e.title = "" → (idealistaPropertyAd url e now).title = "Annuncio senza titolo") ∧
    (e.location = "" →
      (idealistaPropertyAd url e now).location = "Località non specificata") ∧
    (e.description = "" →
      (idealistaPropertyAd url e now).description = "Descrizione non disponibile") ∧
    (e.descriptionSummary = "" →
      (idealistaPropertyAd url e now).descriptionSummary =
        jsSlice e.description 200 ++ "...") ∧
    (e.renovationStatus = "" →
      (idealistaPropertyAd url e now).renovationStatus = "little renovation") ∧
    (e.adAge = "" → (idealistaPropertyAd url e now).adAge = "non specificato") ∧
    (idealistaPropertyAd url e now).title ≠ "" ∧
    (idealistaPropertyAd url e now).location ≠ "" ∧
    (idealistaPropertyAd url e now).description ≠ "" ∧
    (idealistaPropertyAd url e now).descriptionSummary ≠ "" ∧
    (idealistaPropertyAd url e now).renovationStatus ≠ "" ∧
    (idealistaPropertyAd url e now).adAge ≠ "" ∧
    (idealistaPropertyAd url e now).price = e.price ∧
    (idealistaPropertyAd url e now).size = e.size ∧
    (idealistaPropertyAd url e now).rooms = e.rooms ∧
    (idealistaPropertyAd url e now).bathrooms = e.bathrooms ∧
    (immobiliarePropertyAd url e now).title = e.title ∧
    (immobiliarePropertyAd url e now).location = e.location ∧
    (immobiliarePropertyAd url e now).description = e.description ∧
    (immobiliarePropertyAd url e now).descriptionSummary = e.descriptionSummary ∧
    (immobiliarePropertyAd url e now).renovationStatus = e.renovationStatus ∧
    (immobiliarePropertyAd url e now).adAge = e.adAge ∧
    (immobiliarePropertyAd url e now).price = e.price ∧
    (immobiliarePropertyAd url e now).size = e.size ∧
    (immobiliarePropertyAd url e now).rooms = e.rooms ∧
    (immobiliarePropertyAd url e now).bathrooms = e.bathrooms := by
  have happend : ∀ t : String, t ++ "..." ≠ "" := by
    intro t h
    have hd := congrArg String.data h
    simp [String.data_append] at hd
  refine ⟨?_, ?_, ?_, ?_, ?_, ?_, ?_, ?_, ?_, ?_, ?_, ?_,
          rfl, rfl, rfl, rfl, rfl, rfl, rfl, rfl, rfl, rfl, rfl, rfl, rfl, rfl⟩
  · intro h; simp [idealistaPropertyAd, h]
  · intro h; simp [idealistaPropertyAd, h]
  · intro h; simp [idealistaPropertyAd, h]
  · intro h; simp [idealistaPropertyAd, h]
  · intro h; simp [idealistaPropertyAd, h]
  · intro h; simp [idealistaPropertyAd, h]
  · simp only [idealistaPropertyAd]
    split
    · decide
    · assumption
  · simp only [idealistaPropertyAd]
    split
    · decide
    · assumption
  · simp only [idealistaPropertyAd]
    split
    · decide
    · assumption
  · simp only [idealistaPropertyAd]
    split
    · exact happend (jsSlice e.description 200)
    · assumption
  · simp only [idealistaPropertyAd]
    split
    · decide
    · assumption
  · simp only [idealistaPropertyAd]
    split
    · decide
    · assumption

/-- Witness for C8's amended theorem at the empty-fields extraction. -/
theorem c8_fallback_placeholders_witness :
    (idealistaPropertyAd "https://www.idealista.it/immobile/1/"
      extractionEmptyFields "t").title = "Annuncio senza titolo" ∧
    (idealistaPropertyAd "https://www.idealista.it/immobile/1/"
      extractionEmptyFields "t").location = "Località non specificata" ∧
    (idealistaPropertyAd "https://www.idealista.it/immobile/1/"
      extractionEmptyFields "t").description = "Descrizione non disponibile" ∧
    (idealistaPropertyAd "https://www.idealista.it/immobile/1/"
      extractionEmptyFields "t").descriptionSummary =
        jsSlice extractionEmptyFields.description 200 ++ "..." ∧
    (idealistaPropertyAd "https://www.idealista.it/immobile/1/"
      extractionEmptyFields "t").adAge = "non specificato" := by
  obtain ⟨h1, h2, h3, h4, -, h6, -⟩ :=
    c8_fallback_placeholders "https://www.idealista.it/immobile/1/" "t"
      extractionEmptyFields
  exact ⟨h1 rfl, h2 rfl, h3 rfl, h4 rfl, h6 rfl⟩

/-- Counterexample to claim C9 as stated: on a project that does not exist
(no criteria ever set), `getAds` and `getQuestions` do not fail NotFound —
they succeed with the empty list; only `getCriteria` fails. -/
theorem c9_counterexample :
    getAds emptyResearchState = .ok [] ∧
    getQuestions emptyResearchState = .ok [] ∧
    getCriteria emptyResearchState = .error notFoundErr := by
  refine ⟨by decide, by decide, by decide⟩

/-- Claim C9 as amended: of the read-only handlers, only `getCriteria` fails
NotFound on a nonexistent project (criteria absent or empty); `getAds` and
`getQuestions` never fail — they return the stored (possibly empty) lists. -/
theorem c9_reads_amended (s : ResearchState) :
    (strTruthy s.criteria = false → getCriteria s = .error notFoundErr) ∧
    (∀ e, getAds s ≠ .error e) ∧
    (∀ e, getQuestions s ≠ .error e) ∧
    getAds s = .ok (s.ads.getD []) ∧
    getQuestions s = .ok (s.questions.getD []) := by
  refine ⟨?_, ?_, ?_, rfl, rfl⟩
  · intro h
    simp [getCriteria, h]
  · intro e h
    exact Except.noConfusion h
  · intro e h
    exact Except.noConfusion h

/-- Witness for C9's amended theorem on the never-written state. -/
theorem c9_reads_amended_witness :
    getCriteria emptyResearchState = .error notFoundErr ∧
    getAds emptyResearchState ≠ .error notFoundErr := by
  exact ⟨(c9_reads_amended emptyResearchState).1 rfl,
         (c9_reads_amended emptyResearchState).2.1 notFoundErr⟩

/-- Claim C10: the existence check is criteria truthiness, so `create("")`
succeeds (overwriting the ad and question lists with empty lists and storing
the empty criteria), yet afterwards the project still does not exist from the
interface's point of view: a subsequent `create` on the same key succeeds
(no AlreadyExists) and `getCriteria` still fails NotFound. -/
theorem c10_empty_criteria (s : ResearchState) (t t2 c2 : String)
    (h : strTruthy s.criteria = false) :
    (createResearch t s "").1 = .ok () ∧
    ((createResearch t s "").2).criteria = some "" ∧
    ((createResearch t s "").2).ads = some [] ∧
    ((createResearch t s "").2).questions = some [] ∧
    getCriteria (createResearch t s "").2 = .error notFoundErr ∧
    (createResearch t2 (createResearch t s "").2 c2).1 = .ok () := by
  have h1 : createResearch t s "" =
      (.ok (), { criteria := some "", ads := some [], questions := some [],
                 createdAt := some t }) := by
    simp [createResearch, h]
  rw [h1]
  exact ⟨rfl, rfl, rfl, rfl, rfl, rfl⟩

/-- Witness for C10 on the never-written state. -/
theorem c10_empty_criteria_witness :
    (createResearch "t" emptyResearchState "").1 = .ok () ∧
    ((createResearch "t" emptyResearchState "").2).criteria = some "" ∧
    ((createResearch "t" emptyResearchState "").2).ads = some [] ∧
    ((createResearch "t" emptyResearchState "").2).questions = some [] ∧
    getCriteria (createResearch "t" emptyResearchState "").2 = .error notFoundErr ∧
    (createResearch "t2" (createResearch "t" emptyResearchState "").2 "other").1 =
      .ok () :=
  c10_empty_criteria emptyResearchState "t" "t2" "other" rfl

end ReState
